import Mathlib

/-!
Verification development for the license-management-system backend.

The Go source is shallowly embedded: GORM-persisted rows become Lean
structures, the database becomes lists of rows, each HTTP handler becomes a
function from request data and database state to an `Except`-style response
together with the successor state.  Wall-clock reads (`time.Now()`) are passed
in as explicit parameters, and the random bytes drawn by API-key generation
are passed in as an explicit byte list.
-/

namespace LMS

/-- Subscription lifecycle status (`models.SubscriptionStatus`, a string enum
with the five constants `requested/approved/active/inactive/expired`). -/
inductive SubscriptionStatus where
  | requested
  | approved
  | active
  | inactive
  | expired
deriving DecidableEq, Repr

/-- Calendar date at day granularity, modelling the date component of a Go
`time.Time` value.  The handlers under verification compare times and add
calendar months, both of which act at this granularity in every claim. -/
structure Date where
  year : Int
  month : Nat
  day : Nat
deriving DecidableEq, Repr

/-- Gregorian leap-year rule, as used by the Go `time` package. -/
def isLeapYear (y : Int) : Bool :=
  (y % 4 == 0 && y % 100 != 0) || (y % 400 == 0)

/-- Number of days in a month of a given year (Go `daysIn`). -/
def daysInMonth (y : Int) (m : Nat) : Nat :=
  match m with
  | 1 => 31
  | 2 => if isLeapYear y then 29 else 28
  | 3 => 31
  | 4 => 30
  | 5 => 31
  | 6 => 30
  | 7 => 31
  | 8 => 31
  | 9 => 30
  | 10 => 31
  | 11 => 30
  | 12 => 31
  | _ => 31

/-- Day-overflow normalisation used by the Go `time.Date`: a day count larger
than the length of the current month rolls over into the following months
(it is not clamped).  The first argument is recursion fuel; each step removes
at least 28 days, so fuel equal to the day count always suffices. -/
def normDaysAux : Nat → Int → Nat → Nat → Date
  | 0, y, m, d => ⟨y, m, d⟩
  | fuel + 1, y, m, d =>
    if daysInMonth y m < d then
      if m == 12 then
        normDaysAux fuel (y + 1) 1 (d - daysInMonth y m)
      else
        normDaysAux fuel y (m + 1) (d - daysInMonth y m)
    else
      ⟨y, m, d⟩

/-- Normalise a possibly-overflowing day-of-month into a proper date. -/
def normDays (y : Int) (m : Nat) (d : Nat) : Date :=
  normDaysAux d y m d

/-- the Go `Time.AddDate(0, months, 0)`: add calendar months, normalising the
month into range and letting any day overflow roll into the next month
(`2024-01-31` plus one month is `2024-03-02`, not `2024-02-29`). -/
def goAddDate (dt : Date) (months : Nat) : Date :=
  let m0 := dt.month - 1 + months
  normDays (dt.year + (m0 / 12 : Nat)) (m0 % 12 + 1) dt.day

/-- Modelled from the spec: the clamping month-addition the specification
prescribes ("add N months then clamp to last valid day if the origin day
does not exist in the target month").  This is NOT what the source implements;
it exists only to be compared with `goAddDate`. -/
def clampedAddMonths (dt : Date) (months : Nat) : Date :=
  let m0 := dt.month - 1 + months
  let y := dt.year + (m0 / 12 : Nat)
  let m := m0 % 12 + 1
  ⟨y, m, min dt.day (daysInMonth y m)⟩

/-- Strict ordering of dates (models `time.Time.Before` at day granularity). -/
def Date.lt (a b : Date) : Bool :=
  a.year < b.year ||
    (a.year == b.year &&
      (a.month < b.month || (a.month == b.month && a.day < b.day)))

/-- Subscription pack row (`models.SubscriptionPack`); only the fields the
claims touch are carried (price is never read by any claim).  `deleted`
models the GORM soft-delete marker `DeletedAt`. -/
structure SubscriptionPack where
  id : Nat
  name : String
  description : String
  sku : String
  validityMonths : Nat
  deleted : Bool
deriving DecidableEq, Repr

/-- Subscription row (`models.Subscription`). -/
structure Subscription where
  id : Nat
  customerId : Nat
  packId : Nat
  status : SubscriptionStatus
  requestedAt : Date
  approvedAt : Option Date
  assignedAt : Option Date
  expiresAt : Option Date
  deactivatedAt : Option Date
deriving DecidableEq, Repr

/-- Allowed-successor table of `Subscription.CanTransitionTo`
(the `validTransitions` map literal in `models/subscription.go`). -/
def validTransitions (s : SubscriptionStatus) : List SubscriptionStatus :=
  match s with
  | .requested => [.approved, .inactive]
  | .approved => [.active, .inactive]
  | .active => [.inactive, .expired]
  | .inactive => [.active]
  | .expired => [.requested]

/-- `Subscription.CanTransitionTo`: look up the allowed successors of the
current status and scan for the requested one. -/
def Subscription.canTransitionTo (s : Subscription)
    (newStatus : SubscriptionStatus) : Bool :=
  (validTransitions s.status).contains newStatus

/-- `Subscription.IsActive`: status is `active` and `ExpiresAt` is set and in
the future. -/
def Subscription.isActive (s : Subscription) (now : Date) : Bool :=
  s.status == .active &&
    (match s.expiresAt with
     | none => false
     | some e => Date.lt now e)

/-- `Subscription.IsExpired`: `ExpiresAt` is set and in the past.  Note the
source does not consult the status here. -/
def Subscription.isExpired (s : Subscription) (now : Date) : Bool :=
  match s.expiresAt with
  | none => false
  | some e => Date.lt e now

/-- `Subscription.CalculateExpiry`: when `AssignedAt` is set, store
`AssignedAt.AddDate(0, pack.ValidityMonths, 0)` into `ExpiresAt`. -/
def Subscription.calculateExpiry (s : Subscription)
    (pack : SubscriptionPack) : Subscription :=
  match s.assignedAt with
  | none => s
  | some a => { s with expiresAt := some (goAddDate a pack.validityMonths) }

/-- Modelled from the spec: the §4.4 transition table written out pair by
pair, to be compared against `Subscription.canTransitionTo`. -/
def specTransitionAllowed : SubscriptionStatus → SubscriptionStatus → Bool
  | .requested, .approved => true
  | .requested, .inactive => true
  | .approved, .active => true
  | .approved, .inactive => true
  | .active, .inactive => true
  | .active, .expired => true
  | .inactive, .active => true
  | .expired, .requested => true
  | _, _ => false

/-- User row (`models.User`): unique email, bcrypt password hash, role string
(`admin` or `customer`), optional unique API key. -/
structure User where
  id : Nat
  email : String
  password : String
  role : String
  apiKey : Option String
deriving DecidableEq, Repr

/-- Customer row (`models.Customer`); `deleted` models the GORM soft-delete
marker `DeletedAt`. -/
structure Customer where
  id : Nat
  userId : Nat
  name : String
  phone : String
  deleted : Bool
deriving DecidableEq, Repr

/-- Model of the external bcrypt collaborator: hashing a password yields a
tagged digest, deterministic in this model.  Every claim only branches on
whether the stored hash matches the submitted password, never on the digest
contents. -/
def bcryptHash (password : String) : String :=
  "bcrypt$" ++ password

/-- `User.CheckPassword`: compare the stored hash against the submitted
password through the bcrypt collaborator model. -/
def User.checkPassword (u : User) (password : String) : Bool :=
  u.password == bcryptHash password

/-- `User.IsAdmin`. -/
def User.isAdmin (u : User) : Bool :=
  u.role == "admin"

/-- `User.IsCustomer`. -/
def User.isCustomer (u : User) : Bool :=
  u.role == "customer"

/-- Lowercase hexadecimal digit for a value below 16. -/
def hexDigit (n : Nat) : Char :=
  if n < 10 then Char.ofNat (48 + n) else Char.ofNat (87 + n)

/-- Lowercase hex encoding of a byte list (`hex.EncodeToString`). -/
def hexEncode (bytes : List Nat) : String :=
  String.mk (bytes.flatMap (fun b => [hexDigit (b / 16 % 16), hexDigit (b % 16)]))

/-- `User.GenerateAPIKey`: prefix the hex encoding of 16 random bytes; the
random bytes are an explicit parameter of the model. -/
def generateAPIKey (randomBytes : List Nat) : String :=
  "sk-sdk-" ++ hexEncode randomBytes

/-- The user after `GenerateAPIKey` stored the fresh key on it. -/
def User.withGeneratedAPIKey (u : User) (randomBytes : List Nat) : User :=
  { u with apiKey := some (generateAPIKey randomBytes) }

/-- `User.HasAPIKey`: the key pointer is non-nil and the key is non-empty. -/
def User.hasAPIKey (u : User) : Bool :=
  match u.apiKey with
  | none => false
  | some k => k != ""

/-- Model of the external JWT collaborator (`generateJWT`): a signed token
carrying the user id, email, role and issue time.  Claims never inspect the
token contents. -/
def generateJWT (u : User) (now : Nat) : String :=
  "jwt." ++ toString u.id ++ "." ++ u.email ++ "." ++ u.role ++ "." ++ toString now

/-- Error response produced by `BaseHandler.ErrorResponse`: an HTTP status
code and an error message. -/
structure ErrorResp where
  statusCode : Nat
  message : String
deriving DecidableEq, Repr

/-- The uniform login failure (`401 Invalid credentials`). -/
def invalidCredentials : ErrorResp :=
  ⟨401, "Invalid credentials"⟩

/-- Persistent state: the four tables, plus the next auto-increment primary
key for the tables the modelled operations insert into. -/
structure Db where
  users : List User
  customers : List Customer
  packs : List SubscriptionPack
  subs : List Subscription
  nextUserId : Nat
  nextCustomerId : Nat
  nextSubId : Nat
deriving DecidableEq, Repr

/-- GORM `First(&user)` with an email/role filter, as used by the three login
handlers. -/
def findUserByEmailRole (db : Db) (email role : String) : Option User :=
  db.users.find? (fun u => u.email == email && u.role == role)

/-- GORM `First(&customer, id)` (soft-deleted rows are excluded by default). -/
def findCustomer (db : Db) (customerId : Nat) : Option Customer :=
  db.customers.find? (fun c => c.id == customerId && !c.deleted)

/-- GORM `First(&pack)` filtered by SKU (soft-deleted rows excluded). -/
def findPackBySKU (db : Db) (sku : String) : Option SubscriptionPack :=
  db.packs.find? (fun p => p.sku == sku && !p.deleted)

/-- GORM preload of a subscription pack by primary key. -/
def findPackById (db : Db) (packId : Nat) : Option SubscriptionPack :=
  db.packs.find? (fun p => p.id == packId && !p.deleted)

/-- GORM `First(&subscription, id)` (the Subscription model has no
soft-delete column, so no deletion filter applies). -/
def findSub (db : Db) (subId : Nat) : Option Subscription :=
  db.subs.find? (fun s => s.id == subId)

/-- Number of subscription rows of a customer whose stored status is
`active` (the count query inside `Customer.HasActiveSubscription`). -/
def activeCount (subs : List Subscription) (customerId : Nat) : Nat :=
  subs.countP (fun s => s.customerId == customerId && s.status == .active)

/-- `Customer.HasActiveSubscription`: the active-status row count is
positive. -/
def hasActiveSubscription (db : Db) (customerId : Nat) : Bool :=
  decide (0 < activeCount db.subs customerId)

/-- `Customer.GetActiveSubscription`: first subscription row of the customer
whose stored status is `active`. -/
def getActiveSubscription (db : Db) (customerId : Nat) : Option Subscription :=
  db.subs.find? (fun s => s.customerId == customerId && s.status == .active)

/-- GORM `Save(&subscription)`: overwrite the row with the matching primary
key. -/
def updateSub (db : Db) (s : Subscription) : Db :=
  { db with subs := db.subs.map (fun x => if x.id == s.id then s else x) }

/-- GORM `Save(&user)`: overwrite the row with the matching primary key. -/
def saveUser (db : Db) (u : User) : Db :=
  { db with users := db.users.map (fun x => if x.id == u.id then u else x) }

/-- A freshly created subscription row (`Status: requested`,
`RequestedAt: now`, every other lifecycle field nil). -/
def freshSubscription (subId customerId packId : Nat) (now : Date) :
    Subscription :=
  ⟨subId, customerId, packId, .requested, now, none, none, none, none⟩

/-- `SubscriptionHandler.RequestSubscription` (and the identical SDK
handler): conflict when the customer already has an active-status row, bad
request when the SKU is unknown, otherwise insert a fresh `requested` row. -/
def requestSubscription (db : Db) (cust : Customer) (sku : String)
    (now : Date) : Except ErrorResp Db :=
  if hasActiveSubscription db cust.id then
    .error ⟨409, "Customer already has an active subscription"⟩
  else
    match findPackBySKU db sku with
    | none => .error ⟨400, "Invalid subscription pack"⟩
    | some pack =>
      .ok { db with
              subs := db.subs ++ [freshSubscription db.nextSubId cust.id pack.id now],
              nextSubId := db.nextSubId + 1 }

/-- `SubscriptionHandler.CreateSubscription` (admin): customer lookup, pack
lookup, active-subscription conflict check, then insert a fresh `requested`
row. -/
def createSubscription (db : Db) (customerId : Nat) (sku : String)
    (now : Date) : Except ErrorResp Db :=
  match findCustomer db customerId with
  | none => .error ⟨404, "Customer not found"⟩
  | some customer =>
    match findPackBySKU db sku with
    | none => .error ⟨404, "Subscription pack not found"⟩
    | some pack =>
      if hasActiveSubscription db customer.id then
        .error ⟨409, "Customer already has an active subscription"⟩
      else
        .ok { db with
                subs := db.subs ++ [freshSubscription db.nextSubId customer.id pack.id now],
                nextSubId := db.nextSubId + 1 }

/-- `SubscriptionHandler.ApproveSubscription`: guarded by
`CanTransitionTo(approved)`; sets status `approved` and `ApprovedAt`. -/
def approveSubscription (db : Db) (subId : Nat) (now : Date) :
    Except ErrorResp Db :=
  match findSub db subId with
  | none => .error ⟨404, "Subscription not found"⟩
  | some sub =>
    if !sub.canTransitionTo .approved then
      .error ⟨400, "Subscription cannot be approved in current status"⟩
    else
      .ok (updateSub db { sub with status := .approved, approvedAt := some now })

/-- `SubscriptionHandler.AssignSubscription`: guarded by
`CanTransitionTo(active)`, the customer lookup, and the re-checked
active-subscription conflict; sets status `active`, `AssignedAt`, and the
computed expiry.  When the preloaded pack row is absent the Go code would
dereference a nil pack inside `CalculateExpiry`; the model leaves the expiry
untouched in that (unreachable for well-formed data) case. -/
def assignSubscription (db : Db) (subId : Nat) (now : Date) :
    Except ErrorResp Db :=
  match findSub db subId with
  | none => .error ⟨404, "Subscription not found"⟩
  | some sub =>
    if !sub.canTransitionTo .active then
      .error ⟨400, "Subscription cannot be assigned in current status"⟩
    else
      match findCustomer db sub.customerId with
      | none => .error ⟨404, "Customer not found"⟩
      | some customer =>
        if hasActiveSubscription db customer.id then
          .error ⟨409, "Customer already has an active subscription"⟩
        else
          let sub1 := { sub with status := .active, assignedAt := some now }
          let sub2 := match findPackById db sub.packId with
            | some pack => sub1.calculateExpiry pack
            | none => sub1
          .ok (updateSub db sub2)

/-- `SubscriptionHandler.UnassignSubscription` (admin): only `active` rows
may be unassigned; sets status `inactive` and `DeactivatedAt`. -/
def unassignSubscription (db : Db) (subId : Nat) (now : Date) :
    Except ErrorResp Db :=
  match findSub db subId with
  | none => .error ⟨404, "Subscription not found"⟩
  | some sub =>
    if sub.status != .active then
      .error ⟨400, "Only active subscriptions can be unassigned"⟩
    else
      .ok (updateSub db { sub with status := .inactive, deactivatedAt := some now })

/-- `SubscriptionHandler.DeactivateSubscription` (customer and SDK paths):
fetch the active-status row of the calling customer and set it `inactive`
with `DeactivatedAt`. -/
def deactivateSubscription (db : Db) (cust : Customer) (now : Date) :
    Except ErrorResp Db :=
  match getActiveSubscription db cust.id with
  | none => .error ⟨404, "No active subscription found"⟩
  | some sub =>
    .ok (updateSub db { sub with status := .inactive, deactivatedAt := some now })

/-- `SubscriptionHandler.DeleteSubscription` (admin): unconditional hard
delete by primary key. -/
def deleteSubscription (db : Db) (subId : Nat) : Except ErrorResp Db :=
  match findSub db subId with
  | none => .error ⟨404, "Subscription not found"⟩
  | some sub =>
    .ok { db with subs := db.subs.filter (fun s => s.id != sub.id) }

/-- One invocation of any subscription-lifecycle handler, with its request
data. -/
inductive SubOp where
  | request (cust : Customer) (sku : String) (now : Date)
  | create (customerId : Nat) (sku : String) (now : Date)
  | approve (subId : Nat) (now : Date)
  | assign (subId : Nat) (now : Date)
  | unassign (subId : Nat) (now : Date)
  | deactivate (cust : Customer) (now : Date)
  | delete (subId : Nat)

/-- Dispatch a lifecycle operation to its handler. -/
def applyOp (op : SubOp) (db : Db) : Except ErrorResp Db :=
  match op with
  | .request cust sku now => requestSubscription db cust sku now
  | .create customerId sku now => createSubscription db customerId sku now
  | .approve subId now => approveSubscription db subId now
  | .assign subId now => assignSubscription db subId now
  | .unassign subId now => unassignSubscription db subId now
  | .deactivate cust now => deactivateSubscription db cust now
  | .delete subId => deleteSubscription db subId

/-- Successor state of one handler invocation: on a client error the handler
returns before any write, so the state is unchanged. -/
def stepOp (op : SubOp) (db : Db) : Db :=
  match applyOp op db with
  | .ok db1 => db1
  | .error _ => db

/-- Successful interactive login payload (`LoginResponse`): JWT token plus
the user with sensitive fields cleared. -/
structure LoginResp where
  token : String
  user : User
deriving DecidableEq, Repr

/-- Successful SDK login payload (`SDKLoginResponse`): API key plus the user
with the password cleared. -/
structure SDKLoginResp where
  apiKey : String
  user : User
deriving DecidableEq, Repr

/-- `UserHandler.AdminLogin`: look the user up by email with role `admin`,
check the password, and issue a JWT.  Both the lookup miss and the password
mismatch answer `401 Invalid credentials`.  No state is written. -/
def adminLogin (db : Db) (email password : String) (now : Nat) :
    Except ErrorResp LoginResp :=
  match findUserByEmailRole db email "admin" with
  | none => .error invalidCredentials
  | some user =>
    if !user.checkPassword password then
      .error invalidCredentials
    else
      .ok ⟨generateJWT user now, { user with password := "", apiKey := none }⟩

/-- `UserHandler.CustomerLogin`: identical to admin login with role
`customer`. -/
def customerLogin (db : Db) (email password : String) (now : Nat) :
    Except ErrorResp LoginResp :=
  match findUserByEmailRole db email "customer" with
  | none => .error invalidCredentials
  | some user =>
    if !user.checkPassword password then
      .error invalidCredentials
    else
      .ok ⟨generateJWT user now, { user with password := "", apiKey := none }⟩

/-- `SDKHandler.Login`: look the user up by email with role `customer`,
check the password (both failures answer `401 Invalid credentials`), then
generate and save an API key only when the user has none, and answer with
the stored key. -/
def sdkLogin (db : Db) (email password : String) (randomBytes : List Nat) :
    Except ErrorResp SDKLoginResp × Db :=
  match findUserByEmailRole db email "customer" with
  | none => (.error invalidCredentials, db)
  | some user =>
    if !user.checkPassword password then
      (.error invalidCredentials, db)
    else
      let (user1, db1) :=
        if !user.hasAPIKey then
          let u := user.withGeneratedAPIKey randomBytes
          (u, saveUser db u)
        else
          (user, db)
      let user2 := { user1 with password := "" }
      (.ok ⟨user2.apiKey.getD "", user2⟩, db1)

/-- Signup request payload (`SignupRequest`). -/
structure SignupReq where
  email : String
  password : String
  name : String
  phone : String
deriving DecidableEq, Repr

/-- `UserHandler.CustomerSignup`: reject an already-registered email, create
the user with a hashed password AND a freshly generated API key, create the
customer profile, and answer with a JWT.  The response clears the password
and API key, but the stored user row keeps the generated key. -/
def customerSignup (db : Db) (req : SignupReq) (randomBytes : List Nat)
    (now : Nat) : Except ErrorResp (LoginResp × Db) :=
  match db.users.find? (fun u => u.email == req.email) with
  | some _ => .error ⟨409, "Email already registered"⟩
  | none =>
    let user : User :=
      { id := db.nextUserId, email := req.email,
        password := bcryptHash req.password, role := "customer",
        apiKey := some (generateAPIKey randomBytes) }
    let customer : Customer :=
      { id := db.nextCustomerId, userId := user.id,
        name := req.name, phone := req.phone, deleted := false }
    let db1 :=
      { db with
          users := db.users ++ [user], nextUserId := db.nextUserId + 1,
          customers := db.customers ++ [customer],
          nextCustomerId := db.nextCustomerId + 1 }
    .ok (⟨generateJWT user now, { user with password := "", apiKey := none }⟩, db1)

/-- `CustomerHandler.CreateCustomer` (admin): reject an already-registered
email, create the user with a hashed password and NO API key, and create the
customer profile. -/
def createCustomer (db : Db) (req : SignupReq) :
    Except ErrorResp (Customer × Db) :=
  match db.users.find? (fun u => u.email == req.email) with
  | some _ => .error ⟨409, "Email already registered"⟩
  | none =>
    let user : User :=
      { id := db.nextUserId, email := req.email,
        password := bcryptHash req.password, role := "customer",
        apiKey := none }
    let customer : Customer :=
      { id := db.nextCustomerId, userId := user.id,
        name := req.name, phone := req.phone, deleted := false }
    let db1 :=
      { db with
          users := db.users ++ [user], nextUserId := db.nextUserId + 1,
          customers := db.customers ++ [customer],
          nextCustomerId := db.nextCustomerId + 1 }
    .ok (customer, db1)

/-- Well-formed subscription table: primary keys are below the
auto-increment counter, primary keys are unique (as the database enforces),
and every customer has at most one active-status row — the invariant of
claim C1. -/
def Db.WF (db : Db) : Prop :=
  (∀ s ∈ db.subs, s.id < db.nextSubId) ∧
  (db.subs.map Subscription.id).Nodup ∧
  (∀ customerId, activeCount db.subs customerId ≤ 1)

/-- No subscription row stores the status `expired`. -/
def NoStoredExpired (db : Db) : Prop :=
  ∀ s ∈ db.subs, s.status ≠ .expired

/-- Reachability under arbitrary sequences of lifecycle operations. -/
def ReachableFrom (db0 db1 : Db) : Prop :=
  Relation.ReflTransGen (fun a b => ∃ op, b = stepOp op a) db0 db1

theorem map_id_update (l : List Subscription) (s : Subscription) :
    (l.map (fun x => if x.id == s.id then s else x)).map Subscription.id
      = l.map Subscription.id := by
  rw [List.map_map]
  refine List.map_congr_left (fun x _ => ?_)
  by_cases h : x.id = s.id
  · simp [Function.comp, h]
  · simp [Function.comp, h]

theorem mem_update {l : List Subscription} {s y : Subscription}
    (hy : y ∈ l.map (fun x => if x.id == s.id then s else x)) :
    y = s ∨ y ∈ l := by
  obtain ⟨x, hx, hxy⟩ := List.mem_map.1 hy
  by_cases h : x.id = s.id
  · have h1 : (x.id == s.id) = true := by simpa using h
    simp only [h1, if_true] at hxy
    exact Or.inl hxy.symm
  · have h1 : (x.id == s.id) = false := by simpa using h
    simp only [h1, Bool.false_eq_true, if_false] at hxy
    exact Or.inr (hxy ▸ hx)

theorem activeCount_update_le (l : List Subscription) (s : Subscription)
    (cid : Nat)
    (h : (s.customerId == cid && s.status == SubscriptionStatus.active) = false) :
    activeCount (l.map (fun x => if x.id == s.id then s else x)) cid
      ≤ activeCount l cid := by
  unfold activeCount
  rw [List.countP_map]
  refine List.countP_mono_left (fun x _ hx => ?_)
  by_cases hid : x.id = s.id
  · exfalso
    have h1 : (x.id == s.id) = true := by simpa using hid
    simp only [Function.comp_apply, h1, if_true] at hx
    rw [h] at hx
    exact Bool.false_ne_true hx
  · have h1 : (x.id == s.id) = false := by simpa using hid
    simpa only [Function.comp_apply, h1, Bool.false_eq_true, if_false] using hx

theorem countP_id_le_one (l : List Subscription) (i : Nat)
    (hnd : (l.map Subscription.id).Nodup) :
    l.countP (fun x => x.id == i) ≤ 1 := by
  induction l with
  | nil => simp
  | cons x xs ih =>
    rw [List.map_cons, List.nodup_cons] at hnd
    rw [List.countP_cons]
    by_cases h : x.id = i
    · have hz : xs.countP (fun y => y.id == i) = 0 := by
        refine List.countP_eq_zero.2 (fun y hy hp => ?_)
        have hyi : y.id = i := by simpa using hp
        exact hnd.1 (by rw [h, ← hyi]; exact List.mem_map_of_mem _ hy)
      simp [h, hz]
    · have h1 : (x.id == i) = false := by simpa using h
      simpa [h1] using ih hnd.2

theorem activeCount_update_of_zero (l : List Subscription) (s : Subscription)
    (hnd : (l.map Subscription.id).Nodup)
    (hz : activeCount l s.customerId = 0) :
    activeCount (l.map (fun x => if x.id == s.id then s else x)) s.customerId
      ≤ 1 := by
  unfold activeCount at hz ⊢
  rw [List.countP_map]
  calc l.countP ((fun x => x.customerId == s.customerId &&
          x.status == SubscriptionStatus.active) ∘
          fun x => if x.id == s.id then s else x)
      ≤ l.countP (fun x => x.id == s.id) := by
        refine List.countP_mono_left (fun x hx hpx => ?_)
        by_cases hid : x.id = s.id
        · simpa using hid
        · exfalso
          have h1 : (x.id == s.id) = false := by simpa using hid
          simp only [Function.comp_apply, h1, Bool.false_eq_true, if_false] at hpx
          exact (List.countP_eq_zero.1 hz x hx) hpx
    _ ≤ 1 := countP_id_le_one l s.id hnd


theorem WF_insert (db : Db) (cid pid : Nat) (now : Date) (h : db.WF) :
    Db.WF { db with
              subs := db.subs ++ [freshSubscription db.nextSubId cid pid now],
              nextSubId := db.nextSubId + 1 } := by
  obtain ⟨hfresh, hnd, hcnt⟩ := h
  refine ⟨?_, ?_, ?_⟩
  · intro s hs
    simp only [List.mem_append, List.mem_singleton] at hs
    rcases hs with hs | rfl
    · exact Nat.lt_succ_of_lt (hfresh s hs)
    · exact Nat.lt_succ_self _
  · rw [List.map_append]
    refine List.Nodup.append hnd (List.nodup_singleton _) ?_
    intro a ha hb
    simp only [freshSubscription, List.map_cons, List.map_nil,
      List.mem_singleton] at hb
    subst hb
    obtain ⟨x, hx, hxa⟩ := List.mem_map.1 ha
    exact Nat.lt_irrefl _ (hxa ▸ hfresh x hx)
  · intro c
    unfold activeCount
    rw [List.countP_append]
    have hone : List.countP
        (fun s => s.customerId == c && s.status == SubscriptionStatus.active)
        [freshSubscription db.nextSubId cid pid now] = 0 := by
      simp [freshSubscription]
    rw [hone]
    simpa using hcnt c

theorem WF_update_nonactive (db : Db) (s : Subscription)
    (hmem : ∃ x ∈ db.subs, x.id = s.id)
    (hstat : (s.status == SubscriptionStatus.active) = false)
    (h : db.WF) : (updateSub db s).WF := by
  obtain ⟨hfresh, hnd, hcnt⟩ := h
  refine ⟨?_, ?_, ?_⟩
  · intro y hy
    rcases mem_update hy with rfl | hy1
    · obtain ⟨x, hx, hxid⟩ := hmem
      exact hxid ▸ hfresh x hx
    · exact hfresh y hy1
  · show ((db.subs.map _).map Subscription.id).Nodup
    rw [map_id_update]
    exact hnd
  · intro c
    refine le_trans (activeCount_update_le db.subs s c ?_) (hcnt c)
    simp [hstat]

theorem WF_update_activate (db : Db) (s : Subscription)
    (hmem : ∃ x ∈ db.subs, x.id = s.id)
    (hz : activeCount db.subs s.customerId = 0)
    (h : db.WF) : (updateSub db s).WF := by
  obtain ⟨hfresh, hnd, hcnt⟩ := h
  refine ⟨?_, ?_, ?_⟩
  · intro y hy
    rcases mem_update hy with rfl | hy1
    · obtain ⟨x, hx, hxid⟩ := hmem
      exact hxid ▸ hfresh x hx
    · exact hfresh y hy1
  · show ((db.subs.map _).map Subscription.id).Nodup
    rw [map_id_update]
    exact hnd
  · intro c
    by_cases hc : s.customerId = c
    · subst hc
      exact activeCount_update_of_zero db.subs s hnd hz
    · refine le_trans (activeCount_update_le db.subs s c ?_) (hcnt c)
      have h1 : (s.customerId == c) = false := by simpa using hc
      simp [h1]

theorem WF_filter (db : Db) (q : Subscription → Bool) (h : db.WF) :
    Db.WF { db with subs := db.subs.filter q } := by
  obtain ⟨hfresh, hnd, hcnt⟩ := h
  refine ⟨?_, ?_, ?_⟩
  · exact fun s hs => hfresh s (List.mem_of_mem_filter hs)
  · exact List.Nodup.sublist ((db.subs.filter_sublist).map _) hnd
  · intro c
    unfold activeCount
    exact le_trans (List.Sublist.countP_le _ (List.filter_sublist db.subs)) (hcnt c)


theorem WF_stepOp (op : SubOp) (db : Db) (h : db.WF) : (stepOp op db).WF := by
  cases op with
  | request cust sku now =>
    unfold stepOp applyOp requestSubscription
    cases hact : hasActiveSubscription db cust.id with
    | true => simp only [hact]; exact h
    | false =>
      cases hpack : findPackBySKU db sku with
      | none => simp [hact, hpack]; exact h
      | some pack =>
        simp only [hact, hpack, Bool.false_eq_true, if_false]
        exact WF_insert db cust.id pack.id now h
  | create customerId sku now =>
    unfold stepOp applyOp createSubscription
    cases hcust : findCustomer db customerId with
    | none => simp [hcust]; exact h
    | some customer =>
      cases hpack : findPackBySKU db sku with
      | none => simp [hcust, hpack]; exact h
      | some pack =>
        cases hact : hasActiveSubscription db customer.id with
        | true => simp [hcust, hpack, hact]; exact h
        | false =>
          simp only [hcust, hpack, hact, Bool.false_eq_true, if_false]
          exact WF_insert db customer.id pack.id now h
  | approve subId now =>
    unfold stepOp applyOp approveSubscription
    cases hfind : findSub db subId with
    | none => simp [hfind]; exact h
    | some sub =>
      cases htr : sub.canTransitionTo SubscriptionStatus.approved with
      | false => simp [hfind, htr]; exact h
      | true =>
        simp only [hfind, htr, Bool.not_true, Bool.false_eq_true, if_false]
        exact WF_update_nonactive db _
          ⟨sub, List.mem_of_find?_eq_some hfind, rfl⟩ rfl h
  | assign subId now =>
    unfold stepOp applyOp assignSubscription
    cases hfind : findSub db subId with
    | none => simp [hfind]; exact h
    | some sub =>
      cases htr : sub.canTransitionTo SubscriptionStatus.active with
      | false => simp [hfind, htr]; exact h
      | true =>
        cases hcust : findCustomer db sub.customerId with
        | none => simp [hfind, htr, hcust]; exact h
        | some customer =>
          cases hact : hasActiveSubscription db customer.id with
          | true => simp [hfind, htr, hcust, hact]; exact h
          | false =>
            have hcid : customer.id = sub.customerId := by
              have h1 := hcust
              unfold findCustomer at h1
              have hp := List.find?_some h1
              simp only [Bool.and_eq_true, beq_iff_eq] at hp
              exact hp.1
            have hz : activeCount db.subs sub.customerId = 0 := by
              have h0 : ¬ 0 < activeCount db.subs customer.id := by
                simpa [hasActiveSubscription] using hact
              rw [hcid] at h0
              omega
            have hmem : sub ∈ db.subs := List.mem_of_find?_eq_some hfind
            cases hpk : findPackById db sub.packId with
            | none =>
              simp only [hfind, htr, hcust, hact, hpk, Bool.not_true,
                Bool.false_eq_true, if_false]
              exact WF_update_activate db _ ⟨sub, hmem, rfl⟩ hz h
            | some pack =>
              simp only [hfind, htr, hcust, hact, hpk, Bool.not_true,
                Bool.false_eq_true, if_false]
              exact WF_update_activate db _ ⟨sub, hmem, rfl⟩ hz h
  | unassign subId now =>
    unfold stepOp applyOp unassignSubscription
    cases hfind : findSub db subId with
    | none => simp [hfind]; exact h
    | some sub =>
      cases hst : (sub.status != SubscriptionStatus.active) with
      | true => simp [hfind, hst]; exact h
      | false =>
        simp only [hfind, hst, Bool.false_eq_true, if_false]
        exact WF_update_nonactive db _
          ⟨sub, List.mem_of_find?_eq_some hfind, rfl⟩ rfl h
  | deactivate cust now =>
    unfold stepOp applyOp deactivateSubscription
    cases hfind : getActiveSubscription db cust.id with
    | none => simp [hfind]; exact h
    | some sub =>
      simp only [hfind]
      exact WF_update_nonactive db _
        ⟨sub, List.mem_of_find?_eq_some hfind, rfl⟩ rfl h
  | delete subId =>
    unfold stepOp applyOp deleteSubscription
    cases hfind : findSub db subId with
    | none => simp [hfind]; exact h
    | some sub =>
      simp only [hfind]
      exact WF_filter db _ h


theorem NoExp_update (db : Db) (s : Subscription)
    (hs : s.status ≠ SubscriptionStatus.expired)
    (h : NoStoredExpired db) : NoStoredExpired (updateSub db s) := by
  intro y hy
  rcases mem_update hy with rfl | hy1
  · exact hs
  · exact h y hy1

theorem NoExp_insert (db : Db) (cid pid : Nat) (now : Date)
    (h : NoStoredExpired db) :
    NoStoredExpired { db with
        subs := db.subs ++ [freshSubscription db.nextSubId cid pid now],
        nextSubId := db.nextSubId + 1 } := by
  intro y hy
  simp only [List.mem_append, List.mem_singleton] at hy
  rcases hy with hy | rfl
  · exact h y hy
  · simp [freshSubscription]

theorem NoExp_stepOp (op : SubOp) (db : Db) (h : NoStoredExpired db) :
    NoStoredExpired (stepOp op db) := by
  cases op with
  | request cust sku now =>
    unfold stepOp applyOp requestSubscription
    cases hact : hasActiveSubscription db cust.id with
    | true => simp only [hact]; exact h
    | false =>
      cases hpack : findPackBySKU db sku with
      | none => simp [hact, hpack]; exact h
      | some pack =>
        simp only [hact, hpack, Bool.false_eq_true, if_false]
        exact NoExp_insert db cust.id pack.id now h
  | create customerId sku now =>
    unfold stepOp applyOp createSubscription
    cases hcust : findCustomer db customerId with
    | none => simp [hcust]; exact h
    | some customer =>
      cases hpack : findPackBySKU db sku with
      | none => simp [hcust, hpack]; exact h
      | some pack =>
        cases hact : hasActiveSubscription db customer.id with
        | true => simp [hcust, hpack, hact]; exact h
        | false =>
          simp only [hcust, hpack, hact, Bool.false_eq_true, if_false]
          exact NoExp_insert db customer.id pack.id now h
  | approve subId now =>
    unfold stepOp applyOp approveSubscription
    cases hfind : findSub db subId with
    | none => simp [hfind]; exact h
    | some sub =>
      cases htr : sub.canTransitionTo SubscriptionStatus.approved with
      | false => simp [hfind, htr]; exact h
      | true =>
        simp only [hfind, htr, Bool.not_true, Bool.false_eq_true, if_false]
        exact NoExp_update db _ (by simp) h
  | assign subId now =>
    unfold stepOp applyOp assignSubscription
    cases hfind : findSub db subId with
    | none => simp [hfind]; exact h
    | some sub =>
      cases htr : sub.canTransitionTo SubscriptionStatus.active with
      | false => simp [hfind, htr]; exact h
      | true =>
        cases hcust : findCustomer db sub.customerId with
        | none => simp [hfind, htr, hcust]; exact h
        | some customer =>
          cases hact : hasActiveSubscription db customer.id with
          | true => simp [hfind, htr, hcust, hact]; exact h
          | false =>
            cases hpk : findPackById db sub.packId with
            | none =>
              simp only [hfind, htr, hcust, hact, hpk, Bool.not_true,
                Bool.false_eq_true, if_false]
              exact NoExp_update db _ (by simp) h
            | some pack =>
              simp only [hfind, htr, hcust, hact, hpk, Bool.not_true,
                Bool.false_eq_true, if_false]
              exact NoExp_update db _ (by simp [Subscription.calculateExpiry]) h
  | unassign subId now =>
    unfold stepOp applyOp unassignSubscription
    cases hfind : findSub db subId with
    | none => simp [hfind]; exact h
    | some sub =>
      cases hst : (sub.status != SubscriptionStatus.active) with
      | true => simp [hfind, hst]; exact h
      | false =>
        simp only [hfind, hst, Bool.false_eq_true, if_false]
        exact NoExp_update db _ (by simp) h
  | deactivate cust now =>
    unfold stepOp applyOp deactivateSubscription
    cases hfind : getActiveSubscription db cust.id with
    | none => simp [hfind]; exact h
    | some sub =>
      simp only [hfind]
      exact NoExp_update db _ (by simp) h
  | delete subId =>
    unfold stepOp applyOp deleteSubscription
    cases hfind : findSub db subId with
    | none => simp [hfind]; exact h
    | some sub =>
      simp only [hfind]
      intro y hy
      exact h y (List.mem_of_mem_filter hy)

def sampleCustomer : Customer := ⟨1, 1, "Jane", "", false⟩

def samplePack : SubscriptionPack := ⟨1, "Basic", "", "basic", 1, false⟩

def sub1Active : Subscription :=
  ⟨1, 1, 1, .active, ⟨2024, 1, 1⟩, some ⟨2024, 1, 2⟩, some ⟨2024, 1, 3⟩,
    some ⟨2024, 2, 3⟩, none⟩

def sub2Approved : Subscription :=
  ⟨2, 1, 1, .approved, ⟨2024, 1, 5⟩, some ⟨2024, 1, 6⟩, none, none, none⟩

def sampleActiveDb : Db :=
  ⟨[], [sampleCustomer], [samplePack], [sub1Active, sub2Approved], 1, 2, 3⟩

def demoDb : Db := ⟨[], [sampleCustomer], [samplePack], [], 1, 2, 1⟩

def demoRun : Db :=
  stepOp (.deactivate sampleCustomer ⟨2024, 2, 1⟩)
    (stepOp (.assign 1 ⟨2024, 1, 12⟩)
      (stepOp (.approve 1 ⟨2024, 1, 11⟩)
        (stepOp (.request sampleCustomer "basic" ⟨2024, 1, 10⟩) demoDb)))

theorem sampleActiveDb_WF : Db.WF sampleActiveDb := by
  refine ⟨by decide, by decide, ?_⟩
  intro c
  by_cases h : 1 = c
  · simp [activeCount, sampleActiveDb, sub1Active, sub2Approved, h,
      List.countP_cons, List.countP_nil]
  · have h1 : (1 == c) = false := by simpa using h
    simp [activeCount, sampleActiveDb, sub1Active, sub2Approved, h1,
      List.countP_cons, List.countP_nil]

/-- C1: every lifecycle operation preserves the per-customer
at-most-one-active invariant (as part of well-formedness of the subscription
table), and Request, Create and Assign answer `409 Conflict` when the
customer already has an active-status subscription. -/
theorem c1_single_active_preserved :
    (∀ (op : SubOp) (db : Db), db.WF → (stepOp op db).WF) ∧
    (∀ (db : Db) (cust : Customer) (sku : String) (now : Date),
        hasActiveSubscription db cust.id = true →
        requestSubscription db cust sku now =
          Except.error ⟨409, "Customer already has an active subscription"⟩) ∧
    (∀ (db : Db) (customerId : Nat) (sku : String) (now : Date)
        (customer : Customer) (pack : SubscriptionPack),
        findCustomer db customerId = some customer →
        findPackBySKU db sku = some pack →
        hasActiveSubscription db customer.id = true →
        createSubscription db customerId sku now =
          Except.error ⟨409, "Customer already has an active subscription"⟩) ∧
    (∀ (db : Db) (subId : Nat) (now : Date) (sub : Subscription)
        (customer : Customer),
        findSub db subId = some sub →
        sub.canTransitionTo .active = true →
        findCustomer db sub.customerId = some customer →
        hasActiveSubscription db customer.id = true →
        assignSubscription db subId now =
          Except.error ⟨409, "Customer already has an active subscription"⟩) := by
  refine ⟨WF_stepOp, ?_, ?_, ?_⟩
  · intro db cust sku now hact
    simp [requestSubscription, hact]
  · intro db customerId sku now customer pack hcust hpack hact
    simp [createSubscription, hcust, hpack, hact]
  · intro db subId now sub customer hfind htr hcust hact
    simp [assignSubscription, hfind, htr, hcust, hact]

theorem c1_witness :
    Db.WF sampleActiveDb ∧
    Db.WF (stepOp (SubOp.unassign 1 ⟨2024, 1, 20⟩) sampleActiveDb) ∧
    requestSubscription sampleActiveDb sampleCustomer "basic" ⟨2024, 1, 20⟩ =
      Except.error ⟨409, "Customer already has an active subscription"⟩ ∧
    createSubscription sampleActiveDb 1 "basic" ⟨2024, 1, 20⟩ =
      Except.error ⟨409, "Customer already has an active subscription"⟩ ∧
    assignSubscription sampleActiveDb 2 ⟨2024, 1, 20⟩ =
      Except.error ⟨409, "Customer already has an active subscription"⟩ :=
  ⟨sampleActiveDb_WF,
   c1_single_active_preserved.1 _ _ sampleActiveDb_WF,
   c1_single_active_preserved.2.1 sampleActiveDb sampleCustomer "basic" _
     (by decide),
   c1_single_active_preserved.2.2.1 sampleActiveDb 1 "basic" _ sampleCustomer
     samplePack rfl rfl (by decide),
   c1_single_active_preserved.2.2.2 sampleActiveDb 2 _ sub2Approved
     sampleCustomer rfl rfl rfl (by decide)⟩


/-- C10: no lifecycle operation ever writes the stored status `expired`:
from any state without a stored-`expired` row (in particular any state of
freshly created subscriptions, which start `requested`), every state
reachable under the sequential step relation is still without one. -/
theorem c10_stored_expired_unreachable (db0 db1 : Db)
    (h0 : NoStoredExpired db0) (hr : ReachableFrom db0 db1) :
    NoStoredExpired db1 := by
  unfold ReachableFrom at hr
  induction hr with
  | refl => exact h0
  | tail hab hbc ih =>
    obtain ⟨op, rfl⟩ := hbc
    exact NoExp_stepOp op _ ih

theorem c10_witness :
    NoStoredExpired sampleActiveDb ∧
    NoStoredExpired (stepOp (SubOp.unassign 1 ⟨2024, 1, 20⟩) sampleActiveDb) :=
  ⟨by unfold NoStoredExpired; decide,
   c10_stored_expired_unreachable sampleActiveDb _ (by unfold NoStoredExpired; decide)
     (Relation.ReflTransGen.single ⟨SubOp.unassign 1 ⟨2024, 1, 20⟩, rfl⟩)⟩

/-- C5: Request answers `409 Conflict` when the customer has an
active-status subscription, `400 Invalid subscription pack` when the SKU is
unknown, and otherwise appends exactly one fresh `requested` subscription
with `requestedAt = now`; any erroring lifecycle operation leaves the state
unchanged.  (The admin Create variant checks the pack before the conflict,
answering `404` for an unknown SKU.) -/
theorem c5_request_subscription :
    (∀ (db : Db) (cust : Customer) (sku : String) (now : Date),
        hasActiveSubscription db cust.id = true →
        requestSubscription db cust sku now =
          Except.error ⟨409, "Customer already has an active subscription"⟩) ∧
    (∀ (db : Db) (cust : Customer) (sku : String) (now : Date),
        hasActiveSubscription db cust.id = false →
        findPackBySKU db sku = none →
        requestSubscription db cust sku now =
          Except.error ⟨400, "Invalid subscription pack"⟩) ∧
    (∀ (db : Db) (cust : Customer) (sku : String) (now : Date)
        (pack : SubscriptionPack),
        hasActiveSubscription db cust.id = false →
        findPackBySKU db sku = some pack →
        requestSubscription db cust sku now =
          Except.ok { db with
            subs := db.subs ++ [freshSubscription db.nextSubId cust.id pack.id now],
            nextSubId := db.nextSubId + 1 }) ∧
    (∀ (db : Db) (customerId : Nat) (sku : String) (now : Date)
        (customer : Customer),
        findCustomer db customerId = some customer →
        findPackBySKU db sku = none →
        createSubscription db customerId sku now =
          Except.error ⟨404, "Subscription pack not found"⟩) ∧
    (∀ (db : Db) (customerId : Nat) (sku : String) (now : Date)
        (customer : Customer) (pack : SubscriptionPack),
        findCustomer db customerId = some customer →
        findPackBySKU db sku = some pack →
        hasActiveSubscription db customer.id = false →
        createSubscription db customerId sku now =
          Except.ok { db with
            subs := db.subs ++
              [freshSubscription db.nextSubId customer.id pack.id now],
            nextSubId := db.nextSubId + 1 }) ∧
    (∀ (op : SubOp) (db : Db) (e : ErrorResp),
        applyOp op db = Except.error e → stepOp op db = db) := by
  refine ⟨?_, ?_, ?_, ?_, ?_, ?_⟩
  · intro db cust sku now hact
    simp [requestSubscription, hact]
  · intro db cust sku now hact hpack
    simp [requestSubscription, hact, hpack]
  · intro db cust sku now pack hact hpack
    simp [requestSubscription, hact, hpack]
  · intro db customerId sku now customer hcust hpack
    simp [createSubscription, hcust, hpack]
  · intro db customerId sku now customer pack hcust hpack hact
    simp [createSubscription, hcust, hpack, hact]
  · intro op db e h
    unfold stepOp
    rw [h]

theorem c5_witness :
    requestSubscription sampleActiveDb sampleCustomer "other" ⟨2024, 3, 1⟩ =
      Except.error ⟨409, "Customer already has an active subscription"⟩ ∧
    requestSubscription demoDb sampleCustomer "missing" ⟨2024, 3, 1⟩ =
      Except.error ⟨400, "Invalid subscription pack"⟩ ∧
    requestSubscription demoDb sampleCustomer "basic" ⟨2024, 3, 1⟩ =
      Except.ok { demoDb with
        subs := demoDb.subs ++
          [freshSubscription demoDb.nextSubId sampleCustomer.id samplePack.id
            ⟨2024, 3, 1⟩],
        nextSubId := demoDb.nextSubId + 1 } ∧
    createSubscription demoDb 1 "missing" ⟨2024, 3, 1⟩ =
      Except.error ⟨404, "Subscription pack not found"⟩ ∧
    createSubscription demoDb 1 "basic" ⟨2024, 3, 1⟩ =
      Except.ok { demoDb with
        subs := demoDb.subs ++
          [freshSubscription demoDb.nextSubId sampleCustomer.id samplePack.id
            ⟨2024, 3, 1⟩],
        nextSubId := demoDb.nextSubId + 1 } ∧
    stepOp (SubOp.request sampleCustomer "other" ⟨2024, 3, 1⟩) sampleActiveDb =
      sampleActiveDb :=
  ⟨c5_request_subscription.1 sampleActiveDb sampleCustomer "other" _ (by decide),
   c5_request_subscription.2.1 demoDb sampleCustomer "missing" _ (by decide)
     (by decide),
   c5_request_subscription.2.2.1 demoDb sampleCustomer "basic" _ samplePack
     (by decide) (by decide),
   c5_request_subscription.2.2.2.1 demoDb 1 "missing" _ sampleCustomer rfl
     (by decide),
   c5_request_subscription.2.2.2.2.1 demoDb 1 "basic" _ sampleCustomer
     samplePack rfl (by decide) (by decide),
   c5_request_subscription.2.2.2.2.2 (SubOp.request sampleCustomer "other"
     ⟨2024, 3, 1⟩) sampleActiveDb
     ⟨409, "Customer already has an active subscription"⟩ rfl⟩


/-- C6: Unassign fails with `400` whenever the stored status is not `active`
(the state is unchanged, by the error clause of C5 machinery restated here),
and on success it only rewrites `status` to `inactive` and `deactivatedAt`
to now, keeping `approvedAt`, `assignedAt` and `expiresAt`; the customer
Deactivate path can only ever touch an active-status row; and the concrete
Request, Approve, Assign, Deactivate run ends `inactive` with the earlier
timestamps retained. -/
theorem c6_deactivate_behaviour :
    (∀ (db : Db) (subId : Nat) (now : Date) (sub : Subscription),
        findSub db subId = some sub →
        (sub.status == SubscriptionStatus.active) = false →
        unassignSubscription db subId now =
          Except.error ⟨400, "Only active subscriptions can be unassigned"⟩ ∧
        stepOp (SubOp.unassign subId now) db = db) ∧
    (∀ (db : Db) (subId : Nat) (now : Date) (sub : Subscription),
        findSub db subId = some sub →
        sub.status = SubscriptionStatus.active →
        unassignSubscription db subId now =
          Except.ok (updateSub db
            { sub with status := SubscriptionStatus.inactive,
                       deactivatedAt := some now })) ∧
    (∀ (db : Db) (cust : Customer) (now : Date),
        getActiveSubscription db cust.id = none →
        deactivateSubscription db cust now =
          Except.error ⟨404, "No active subscription found"⟩ ∧
        stepOp (SubOp.deactivate cust now) db = db) ∧
    (∀ (db : Db) (cust : Customer) (now : Date) (sub : Subscription),
        getActiveSubscription db cust.id = some sub →
        sub.status = SubscriptionStatus.active ∧
        deactivateSubscription db cust now =
          Except.ok (updateSub db
            { sub with status := SubscriptionStatus.inactive,
                       deactivatedAt := some now })) ∧
    (∀ (sub : Subscription) (now : Date),
        ({ sub with status := SubscriptionStatus.inactive,
                    deactivatedAt := some now } : Subscription).approvedAt =
            sub.approvedAt ∧
        ({ sub with status := SubscriptionStatus.inactive,
                    deactivatedAt := some now } : Subscription).assignedAt =
            sub.assignedAt ∧
        ({ sub with status := SubscriptionStatus.inactive,
                    deactivatedAt := some now } : Subscription).expiresAt =
            sub.expiresAt) ∧
    demoRun.subs =
      [⟨1, 1, 1, .inactive, ⟨2024, 1, 10⟩, some ⟨2024, 1, 11⟩,
        some ⟨2024, 1, 12⟩, some ⟨2024, 2, 12⟩, some ⟨2024, 2, 1⟩⟩] := by
  refine ⟨?_, ?_, ?_, ?_, fun sub now => ⟨rfl, rfl, rfl⟩, rfl⟩
  · intro db subId now sub hfind hstat
    have hbne : (sub.status != SubscriptionStatus.active) = true := by
      simp [bne, hstat]
    constructor
    · simp [unassignSubscription, hfind, hbne]
    · unfold stepOp applyOp unassignSubscription
      simp [hfind, hbne]
  · intro db subId now sub hfind hstat
    have hbne : (sub.status != SubscriptionStatus.active) = false := by
      simp [bne, hstat]
    simp [unassignSubscription, hfind, hbne]
  · intro db cust now hfind
    constructor
    · simp [deactivateSubscription, hfind]
    · unfold stepOp applyOp deactivateSubscription
      simp [hfind]
  · intro db cust now sub hfind
    constructor
    · have h1 := hfind
      unfold getActiveSubscription at h1
      have hp := List.find?_some h1
      simp only [Bool.and_eq_true, beq_iff_eq] at hp
      exact hp.2
    · simp [deactivateSubscription, hfind]

theorem c6_witness :
    unassignSubscription sampleActiveDb 2 ⟨2024, 1, 20⟩ =
      Except.error ⟨400, "Only active subscriptions can be unassigned"⟩ ∧
    unassignSubscription sampleActiveDb 1 ⟨2024, 1, 20⟩ =
      Except.ok (updateSub sampleActiveDb
        { sub1Active with status := SubscriptionStatus.inactive,
                          deactivatedAt := some ⟨2024, 1, 20⟩ }) ∧
    deactivateSubscription demoDb sampleCustomer ⟨2024, 1, 20⟩ =
      Except.error ⟨404, "No active subscription found"⟩ ∧
    deactivateSubscription sampleActiveDb sampleCustomer ⟨2024, 1, 20⟩ =
      Except.ok (updateSub sampleActiveDb
        { sub1Active with status := SubscriptionStatus.inactive,
                          deactivatedAt := some ⟨2024, 1, 20⟩ }) :=
  ⟨(c6_deactivate_behaviour.1 sampleActiveDb 2 _ sub2Approved rfl rfl).1,
   c6_deactivate_behaviour.2.1 sampleActiveDb 1 _ sub1Active rfl rfl,
   (c6_deactivate_behaviour.2.2.1 demoDb sampleCustomer _ rfl).1,
   (c6_deactivate_behaviour.2.2.2.1 sampleActiveDb sampleCustomer _
     sub1Active rfl).2⟩


def subExpired : Subscription :=
  ⟨3, 1, 1, .expired, ⟨2024, 1, 1⟩, none, none, none, none⟩

/-- C2: `CanTransitionTo` agrees with the §4.4 transition table on every
pair of statuses, and in particular always rejects `expired → approved`. -/
theorem c2_transition_table :
    (∀ (s : Subscription) (ns : SubscriptionStatus),
        s.canTransitionTo ns = specTransitionAllowed s.status ns) ∧
    (∀ s : Subscription, s.status = SubscriptionStatus.expired →
        s.canTransitionTo .approved = false) := by
  constructor
  · intro s ns
    cases s with
    | mk i c p st r a b d e => cases st <;> cases ns <;> rfl
  · intro s h
    simp [Subscription.canTransitionTo, h, validTransitions]

theorem c2_witness :
    subExpired.status = SubscriptionStatus.expired ∧
    subExpired.canTransitionTo .approved = false :=
  ⟨rfl, c2_transition_table.2 subExpired rfl⟩

def janSub : Subscription :=
  ⟨1, 1, 1, .approved, ⟨2024, 1, 1⟩, none, some ⟨2024, 1, 31⟩, none, none⟩

def approvedDb : Db :=
  ⟨[], [sampleCustomer], [samplePack], [sub2Approved], 1, 2, 3⟩

/-- C3 refutation: with `assignedAt = 2024-01-31` and a one-month pack,
`CalculateExpiry` stores `2024-03-02` (Go `AddDate` rolls the overflow into
March), not the clamped `2024-02-29` the claim demands. -/
theorem c3_counterexample :
    (janSub.calculateExpiry samplePack).expiresAt = some ⟨2024, 3, 2⟩ ∧
    clampedAddMonths ⟨2024, 1, 31⟩ 1 = ⟨2024, 2, 29⟩ ∧
    some (⟨2024, 3, 2⟩ : Date) ≠ some (⟨2024, 2, 29⟩ : Date) :=
  ⟨rfl, rfl, by decide⟩

/-- C3 (amended): on a successful Assign, `expiresAt` is `assignedAt` plus
`pack.validityMonths` calendar months under the Go `AddDate` normalisation
(day overflow rolls into the following month; no clamping). -/
theorem c3_expiry_adddate :
    (∀ (s : Subscription) (p : SubscriptionPack) (a : Date),
        s.assignedAt = some a →
        (s.calculateExpiry p).expiresAt = some (goAddDate a p.validityMonths)) ∧
    (∀ (db : Db) (subId : Nat) (now : Date) (sub : Subscription)
        (customer : Customer) (pack : SubscriptionPack),
        findSub db subId = some sub →
        sub.canTransitionTo .active = true →
        findCustomer db sub.customerId = some customer →
        hasActiveSubscription db customer.id = false →
        findPackById db sub.packId = some pack →
        assignSubscription db subId now =
          Except.ok (updateSub db
            { sub with status := .active, assignedAt := some now,
                       expiresAt := some (goAddDate now pack.validityMonths) })) := by
  constructor
  · intro s p a h
    simp [Subscription.calculateExpiry, h]
  · intro db subId now sub customer pack hfind htr hcust hact hpack
    simp [assignSubscription, hfind, htr, hcust, hact, hpack,
      Subscription.calculateExpiry]

theorem c3_witness :
    janSub.assignedAt = some ⟨2024, 1, 31⟩ ∧
    (janSub.calculateExpiry samplePack).expiresAt =
      some (goAddDate ⟨2024, 1, 31⟩ samplePack.validityMonths) ∧
    assignSubscription approvedDb 2 ⟨2024, 1, 31⟩ =
      Except.ok (updateSub approvedDb
        { sub2Approved with
            status := .active, assignedAt := some ⟨2024, 1, 31⟩,
            expiresAt := some (goAddDate ⟨2024, 1, 31⟩ samplePack.validityMonths) }) :=
  ⟨rfl,
   c3_expiry_adddate.1 janSub samplePack _ rfl,
   c3_expiry_adddate.2 approvedDb 2 _ sub2Approved sampleCustomer samplePack
     rfl rfl rfl (by decide) rfl⟩

def inactivePastSub : Subscription :=
  ⟨1, 1, 1, .inactive, ⟨2024, 1, 1⟩, none, none, some ⟨2024, 2, 1⟩, none⟩

/-- C4 refutation: a subscription whose stored status is `inactive` but
whose `expiresAt` lies in the past satisfies `IsExpired`, although the claim
requires `IsExpired` to hold only for `active`-status subscriptions. -/
theorem c4_counterexample :
    Subscription.isExpired inactivePastSub ⟨2024, 6, 1⟩ = true ∧
    inactivePastSub.status ≠ SubscriptionStatus.active := by
  decide

/-- C4 (amended): `IsExpired` holds exactly when `expiresAt` is set and in
the past, independently of the stored status. -/
theorem c4_isexpired_iff (s : Subscription) (now : Date) :
    s.isExpired now = true ↔
      ∃ e, s.expiresAt = some e ∧ Date.lt e now = true := by
  cases h : s.expiresAt <;> simp [Subscription.isExpired, h]


theorem generateAPIKey_ne_empty (bytes : List Nat) :
    generateAPIKey bytes ≠ "" := by
  intro h
  have h7 : ("sk-sdk-" : String).length = 7 := rfl
  have hlen : (generateAPIKey bytes).length =
      7 + (hexEncode bytes).length := by
    simp [generateAPIKey, String.length_append, h7]
  rw [h] at hlen
  have h0 : ("" : String).length = 0 := rfl
  rw [h0] at hlen
  omega

theorem find_saveUser (l : List User) (p : User → Bool) (u v : User)
    (hfind : l.find? p = some u) (hid : v.id = u.id) (hp : p v = true) :
    (l.map (fun x => if x.id == v.id then v else x)).find? p = some v := by
  induction l with
  | nil => simp at hfind
  | cons x xs ih =>
    by_cases hxy : x.id = v.id
    · have hb : (x.id == v.id) = true := by simpa using hxy
      simp only [List.map_cons, hb, if_true]
      exact List.find?_cons_of_pos _ hp
    · have hb : (x.id == v.id) = false := by simpa using hxy
      simp only [List.map_cons, hb, Bool.false_eq_true, if_false]
      by_cases hx : p x
      · rw [List.find?_cons_of_pos _ hx] at hfind
        injection hfind with hxu
        exact absurd (hid.trans (hxu ▸ rfl)).symm hxy
      · rw [List.find?_cons_of_neg _ hx] at hfind
        rw [List.find?_cons_of_neg _ hx]
        exact ih hfind


/-- C9: for each of the three login surfaces, the lookup-miss failure and
the password-mismatch failure produce the selfsame response
(`401 Invalid credentials`), so the two runs are indistinguishable and users
cannot be enumerated; the SDK variant also leaves the state unchanged in
both cases. -/
theorem c9_login_indistinguishable :
    (∀ (db : Db) (email password : String) (now : Nat),
        findUserByEmailRole db email "admin" = none →
        adminLogin db email password now = Except.error invalidCredentials) ∧
    (∀ (db : Db) (email password : String) (now : Nat) (u : User),
        findUserByEmailRole db email "admin" = some u →
        u.checkPassword password = false →
        adminLogin db email password now = Except.error invalidCredentials) ∧
    (∀ (db : Db) (email password : String) (now : Nat),
        findUserByEmailRole db email "customer" = none →
        customerLogin db email password now = Except.error invalidCredentials) ∧
    (∀ (db : Db) (email password : String) (now : Nat) (u : User),
        findUserByEmailRole db email "customer" = some u →
        u.checkPassword password = false →
        customerLogin db email password now = Except.error invalidCredentials) ∧
    (∀ (db : Db) (email password : String) (bytes : List Nat),
        findUserByEmailRole db email "customer" = none →
        sdkLogin db email password bytes = (Except.error invalidCredentials, db)) ∧
    (∀ (db : Db) (email password : String) (bytes : List Nat) (u : User),
        findUserByEmailRole db email "customer" = some u →
        u.checkPassword password = false →
        sdkLogin db email password bytes = (Except.error invalidCredentials, db)) := by
  refine ⟨?_, ?_, ?_, ?_, ?_, ?_⟩
  · intro db email password now hfind
    simp [adminLogin, hfind]
  · intro db email password now u hfind hpw
    simp [adminLogin, hfind, hpw]
  · intro db email password now hfind
    simp [customerLogin, hfind]
  · intro db email password now u hfind hpw
    simp [customerLogin, hfind, hpw]
  · intro db email password bytes hfind
    simp [sdkLogin, hfind]
  · intro db email password bytes u hfind hpw
    simp [sdkLogin, hfind, hpw]

def adminUser : User := ⟨1, "admin@example.com", bcryptHash "adminpw", "admin", none⟩

def custUser : User := ⟨2, "customer@example.com", bcryptHash "custpw", "customer", none⟩

def authDb : Db := ⟨[adminUser, custUser], [], [], [], 3, 1, 1⟩

theorem c9_witness :
    adminLogin authDb "ghost@example.com" "x" 0 =
      Except.error invalidCredentials ∧
    adminLogin authDb "admin@example.com" "wrong" 0 =
      Except.error invalidCredentials ∧
    customerLogin authDb "ghost@example.com" "x" 0 =
      Except.error invalidCredentials ∧
    customerLogin authDb "customer@example.com" "wrong" 0 =
      Except.error invalidCredentials ∧
    sdkLogin authDb "ghost@example.com" "x" [] =
      (Except.error invalidCredentials, authDb) ∧
    sdkLogin authDb "customer@example.com" "wrong" [] =
      (Except.error invalidCredentials, authDb) :=
  ⟨c9_login_indistinguishable.1 authDb "ghost@example.com" "x" 0 rfl,
   c9_login_indistinguishable.2.1 authDb "admin@example.com" "wrong" 0
     adminUser rfl rfl,
   c9_login_indistinguishable.2.2.1 authDb "ghost@example.com" "x" 0 rfl,
   c9_login_indistinguishable.2.2.2.1 authDb "customer@example.com" "wrong" 0
     custUser rfl rfl,
   c9_login_indistinguishable.2.2.2.2.1 authDb "ghost@example.com" "x" [] rfl,
   c9_login_indistinguishable.2.2.2.2.2 authDb "customer@example.com" "wrong"
     [] custUser rfl rfl⟩


/-- C8: API-key issuance is idempotent per user: SDK login generates a key
only when the user has none, two successive successful SDK logins return the
same key, and the second login writes nothing. -/
theorem c8_apikey_idempotent (db : Db) (email password : String)
    (b1 b2 : List Nat) (u : User)
    (hfind : findUserByEmailRole db email "customer" = some u)
    (hpw : u.checkPassword password = true) :
    (∃ r1 r2 : SDKLoginResp,
        (sdkLogin db email password b1).1 = Except.ok r1 ∧
        (sdkLogin (sdkLogin db email password b1).2 email password b2).1 =
          Except.ok r2 ∧
        r2.apiKey = r1.apiKey) ∧
    (sdkLogin (sdkLogin db email password b1).2 email password b2).2 =
      (sdkLogin db email password b1).2 ∧
    (u.hasAPIKey = true → (sdkLogin db email password b1).2 = db) := by
  cases hkey : u.hasAPIKey with
  | true =>
    have h1 : sdkLogin db email password b1 =
        (Except.ok ⟨u.apiKey.getD "", { u with password := "" }⟩, db) := by
      simp [sdkLogin, hfind, hpw, hkey]
    have h2 : sdkLogin db email password b2 =
        (Except.ok ⟨u.apiKey.getD "", { u with password := "" }⟩, db) := by
      simp [sdkLogin, hfind, hpw, hkey]
    rw [h1]
    exact ⟨⟨_, _, rfl, by rw [h2], rfl⟩, by rw [h2], fun _ => rfl⟩
  | false =>
    have hfind0 : db.users.find?
        (fun v => v.email == email && v.role == "customer") = some u := by
      unfold findUserByEmailRole at hfind
      exact hfind
    have hp := List.find?_some hfind0
    have h1 : sdkLogin db email password b1 =
        (Except.ok ⟨(u.withGeneratedAPIKey b1).apiKey.getD "",
            { u.withGeneratedAPIKey b1 with password := "" }⟩,
          saveUser db (u.withGeneratedAPIKey b1)) := by
      simp [sdkLogin, hfind, hpw, hkey]
    have hfind2 : findUserByEmailRole (saveUser db (u.withGeneratedAPIKey b1))
        email "customer" = some (u.withGeneratedAPIKey b1) := by
      unfold findUserByEmailRole saveUser
      exact find_saveUser db.users _ u (u.withGeneratedAPIKey b1) hfind0 rfl hp
    have hpw2 : (u.withGeneratedAPIKey b1).checkPassword password = true := hpw
    have hkey2 : (u.withGeneratedAPIKey b1).hasAPIKey = true := by
      simpa [User.hasAPIKey, User.withGeneratedAPIKey] using
        generateAPIKey_ne_empty b1
    have h2 : sdkLogin (saveUser db (u.withGeneratedAPIKey b1)) email password
        b2 =
        (Except.ok ⟨(u.withGeneratedAPIKey b1).apiKey.getD "",
            { u.withGeneratedAPIKey b1 with password := "" }⟩,
          saveUser db (u.withGeneratedAPIKey b1)) := by
      simp only [sdkLogin, hfind2]
      simp [hpw2, hkey2]
    rw [h1]
    exact ⟨⟨_, _, rfl, by rw [h2], rfl⟩, by rw [h2],
      fun hc => absurd hc Bool.false_ne_true⟩


def freshCustUser : User :=
  ⟨5, "fresh@example.com", bcryptHash "freshpw", "customer", none⟩

def freshAuthDb : Db := ⟨[freshCustUser], [], [], [], 6, 1, 1⟩

theorem c8_witness :
    findUserByEmailRole freshAuthDb "fresh@example.com" "customer" =
      some freshCustUser ∧
    freshCustUser.checkPassword "freshpw" = true ∧
    ((∃ r1 r2 : SDKLoginResp,
        (sdkLogin freshAuthDb "fresh@example.com" "freshpw" [0, 1]).1 =
          Except.ok r1 ∧
        (sdkLogin (sdkLogin freshAuthDb "fresh@example.com" "freshpw"
            [0, 1]).2 "fresh@example.com" "freshpw" [2, 3]).1 =
          Except.ok r2 ∧
        r2.apiKey = r1.apiKey) ∧
      (sdkLogin (sdkLogin freshAuthDb "fresh@example.com" "freshpw"
          [0, 1]).2 "fresh@example.com" "freshpw" [2, 3]).2 =
        (sdkLogin freshAuthDb "fresh@example.com" "freshpw" [0, 1]).2 ∧
      (freshCustUser.hasAPIKey = true →
        (sdkLogin freshAuthDb "fresh@example.com" "freshpw" [0, 1]).2 =
          freshAuthDb)) :=
  ⟨rfl, rfl,
   c8_apikey_idempotent freshAuthDb "fresh@example.com" "freshpw" [0, 1]
     [2, 3] freshCustUser rfl rfl⟩

def signupReq : SignupReq := ⟨"new@example.com", "newpw123", "New User", ""⟩

def signupBytes : List Nat :=
  [0, 1, 2, 3, 4, 5, 6, 7, 8, 9, 10, 11, 12, 13, 14, 15]

def signupUser : User :=
  ⟨1, "new@example.com", bcryptHash "newpw123", "customer",
    some (generateAPIKey signupBytes)⟩

def signupCust : Customer := ⟨1, 1, "New User", "", false⟩

/-- C7 refutation: running customer signup on an empty store creates a user
whose API key is already present before any SDK login took place, while the
claim requires the key to be absent until the first SDK login. -/
theorem c7_counterexample :
    customerSignup ⟨[], [], [], [], 1, 1, 1⟩ signupReq signupBytes 0 =
      Except.ok
        (⟨generateJWT signupUser 0, { signupUser with password := "", apiKey := none }⟩,
         ⟨[signupUser], [signupCust], [], [], 2, 2, 1⟩) ∧
    signupUser.hasAPIKey = true ∧
    signupUser.apiKey ≠ none := by
  refine ⟨rfl, rfl, by simp [signupUser]⟩

/-- C7 (amended): customer signup stores the freshly created user WITH a
generated API key, so the key is present from signup on; only admin
customer-creation stores the user without a key, and for such users the
first SDK login is what generates and saves one. -/
theorem c7_apikey_at_signup :
    (∀ (db : Db) (req : SignupReq) (bytes : List Nat) (now : Nat)
        (out : LoginResp × Db),
        customerSignup db req bytes now = Except.ok out →
        out.2.users = db.users ++
          [⟨db.nextUserId, req.email, bcryptHash req.password, "customer",
            some (generateAPIKey bytes)⟩] ∧
        (⟨db.nextUserId, req.email, bcryptHash req.password, "customer",
            some (generateAPIKey bytes)⟩ : User).hasAPIKey = true) ∧
    (∀ (db : Db) (req : SignupReq) (out : Customer × Db),
        createCustomer db req = Except.ok out →
        out.2.users = db.users ++
          [⟨db.nextUserId, req.email, bcryptHash req.password, "customer",
            none⟩]) ∧
    (∀ (db : Db) (email password : String) (bytes : List Nat) (u : User),
        findUserByEmailRole db email "customer" = some u →
        u.checkPassword password = true →
        u.hasAPIKey = false →
        (sdkLogin db email password bytes).2 =
          saveUser db (u.withGeneratedAPIKey bytes)) := by
  refine ⟨?_, ?_, ?_⟩
  · intro db req bytes now out h
    cases hfind : db.users.find? (fun v => v.email == req.email) with
    | some w =>
      rw [customerSignup.eq_def, hfind] at h
      exact absurd h (by simp)
    | none =>
      rw [customerSignup.eq_def, hfind] at h
      injection h with h1
      constructor
      · rw [← h1]
      · simpa [User.hasAPIKey] using generateAPIKey_ne_empty bytes
  · intro db req out h
    cases hfind : db.users.find? (fun v => v.email == req.email) with
    | some w =>
      rw [createCustomer.eq_def, hfind] at h
      exact absurd h (by simp)
    | none =>
      rw [createCustomer.eq_def, hfind] at h
      injection h with h1
      rw [← h1]
  · intro db email password bytes u hfind hpw hkey
    simp [sdkLogin, hfind, hpw, hkey]

theorem c7_witness :
    customerSignup ⟨[], [], [], [], 1, 1, 1⟩ signupReq signupBytes 0 =
      Except.ok
        (⟨generateJWT signupUser 0, { signupUser with password := "", apiKey := none }⟩,
         ⟨[signupUser], [signupCust], [], [], 2, 2, 1⟩) ∧
    ((⟨[signupUser], [signupCust], [], [], 2, 2, 1⟩ : Db).users =
        [] ++ [⟨1, signupReq.email, bcryptHash signupReq.password, "customer",
          some (generateAPIKey signupBytes)⟩] ∧
      (⟨1, signupReq.email, bcryptHash signupReq.password, "customer",
          some (generateAPIKey signupBytes)⟩ : User).hasAPIKey = true) ∧
    createCustomer ⟨[], [], [], [], 1, 1, 1⟩ signupReq =
      Except.ok (signupCust,
        ⟨[{ signupUser with apiKey := none }], [signupCust], [], [], 2, 2, 1⟩) ∧
    (⟨[{ signupUser with apiKey := none }], [signupCust], [], [], 2, 2, 1⟩ : Db).users =
      [] ++ [⟨1, signupReq.email, bcryptHash signupReq.password, "customer", none⟩] :=
  ⟨rfl,
   c7_apikey_at_signup.1 ⟨[], [], [], [], 1, 1, 1⟩ signupReq signupBytes 0 _ rfl,
   rfl,
   c7_apikey_at_signup.2.1 ⟨[], [], [], [], 1, 1, 1⟩ signupReq _ rfl⟩

end LMS
